import Mathlib

/-!
Verification of the mini-orchestrator job runner (split → parallel process →
merge engine with two example jobs).  The Python sources are shallowly
embedded: pure functions become Lean functions, Python exceptions become
`Except String`, machine floats become exact rationals (every value this
file actually computes or compares agrees with the CPython float result),
and the nondeterministic `as_completed` collection order is abstracted to
submission order (the order-sensitivity questions are settled by explicit
permutation theorems).  All definitions are structurally recursive so that
every concrete claim can be settled by kernel evaluation.
-/

/-! ### Executable rationals (the model of Python floats) -/

/-- Structural-fuel Euclidean algorithm. -/
def gcdFuel : Nat → Nat → Nat → Nat
  | 0, a, _ => a
  | _ + 1, a, 0 => a
  | f + 1, a, b => gcdFuel f b (a % b)

/-- Greatest common divisor (kernel-evaluable). -/
def myGcd (a b : Nat) : Nat := gcdFuel (a + b + 1) a b

/-- A rational in canonical form (`den > 0`, reduced); models the Python
float values of this repository, all of which are computed and compared
exactly. -/
structure PyRat where
  num : Int
  den : Nat
deriving DecidableEq

/-- Build the canonical rational `n / d` (`d ≠ 0` at every call site). -/
def mkPyRat (n : Int) (d : Int) : PyRat :=
  if d = 0 then ⟨0, 0⟩
  else
    let s : Int := if d < 0 then -n else n
    let dd : Nat := d.natAbs
    let g : Nat := myGcd s.natAbs dd
    ⟨s / (g : Int), dd / g⟩

instance : OfNat PyRat n := ⟨⟨(n : Int), 1⟩⟩

def PyRat.add (a b : PyRat) : PyRat :=
  mkPyRat (a.num * (b.den : Int) + b.num * (a.den : Int)) ((a.den : Int) * (b.den : Int))

def PyRat.neg (a : PyRat) : PyRat := ⟨-a.num, a.den⟩

def PyRat.sub (a b : PyRat) : PyRat := a.add b.neg

def PyRat.mul (a b : PyRat) : PyRat :=
  mkPyRat (a.num * b.num) ((a.den : Int) * (b.den : Int))

def PyRat.div (a b : PyRat) : PyRat :=
  mkPyRat (a.num * (b.den : Int)) ((a.den : Int) * b.num)

def PyRat.abs (a : PyRat) : PyRat := ⟨(a.num.natAbs : Int), a.den⟩

/-- `math.floor` / the integer part used by fixed-point formatting. -/
def PyRat.floor (a : PyRat) : Int := Int.fdiv a.num (a.den : Int)

def PyRat.pow (a : PyRat) : Nat → PyRat
  | 0 => 1
  | n + 1 => (PyRat.pow a n).mul a

instance : Add PyRat := ⟨PyRat.add⟩
instance : Neg PyRat := ⟨PyRat.neg⟩
instance : Sub PyRat := ⟨PyRat.sub⟩
instance : Mul PyRat := ⟨PyRat.mul⟩
instance : Div PyRat := ⟨PyRat.div⟩
instance : Pow PyRat Nat := ⟨PyRat.pow⟩
instance : LE PyRat := ⟨fun a b => a.num * (b.den : Int) ≤ b.num * (a.den : Int)⟩
instance : LT PyRat := ⟨fun a b => a.num * (b.den : Int) < b.num * (a.den : Int)⟩

instance (a b : PyRat) : Decidable (a ≤ b) :=
  inferInstanceAs (Decidable (a.num * (b.den : Int) ≤ b.num * (a.den : Int)))

instance (a b : PyRat) : Decidable (a < b) :=
  inferInstanceAs (Decidable (a.num * (b.den : Int) < b.num * (a.den : Int)))

instance : Max PyRat := ⟨fun a b => if a ≤ b then b else a⟩
instance : Min PyRat := ⟨fun a b => if b ≤ a then b else a⟩

/-- Exact sum of a list of rationals (the interior of `statistics.mean` and
`statistics.stdev`, which CPython computes in exact `Fraction` arithmetic).
-/
def PyRat.listSum (l : List PyRat) : PyRat := l.foldl PyRat.add 0

/-- The rational `n` for a natural `n` (Python int-to-float promotion). -/
def ratOfNat (n : Nat) : PyRat := ⟨(n : Int), 1⟩

/-- The rational `i` for an int `i`. -/
def ratOfInt (i : Int) : PyRat := ⟨i, 1⟩

/-! ### Python string primitives (structurally recursive models) -/

/-- Membership of the Python `str.strip()` whitespace set. -/
def pyIsSpace (c : Char) : Bool :=
  c = ' ' || c = '\t' || c = '\n' || c = '\r' || c = '\x0b' || c = '\x0c'

/-- Python `s.strip()`. -/
def pyStrip (s : String) : String :=
  String.mk (((s.toList.dropWhile pyIsSpace).reverse.dropWhile pyIsSpace).reverse)

/-- Does `sep` occur at the head of `s`? -/
def leadsWith : List Char → List Char → Bool
  | [], _ => true
  | _ :: _, [] => false
  | a :: as, b :: bs => a = b && leadsWith as bs

/-- Python `s.startswith(p)`. -/
def pyStartsWith (s p : String) : Bool := leadsWith p.toList s.toList

/-- Python `s.endswith(p)`. -/
def pyEndsWith (s p : String) : Bool := leadsWith p.toList.reverse s.toList.reverse

/-- Python `c in s` for a single character. -/
def pyContainsChar (s : String) (c : Char) : Bool := s.toList.any (fun x => x = c)

/-- Python `s.split(sep)` with non-empty `sep`, structural on a fuel that
bounds the string length: scan left to right, splitting at each
(non-overlapping) occurrence of the separator. -/
def pySplitGo (sep : List Char) : Nat → List Char → List Char → List (List Char)
  | 0, s, cur => [cur ++ s]
  | f + 1, s, cur =>
    match s with
    | [] => [cur]
    | c :: rest =>
      if leadsWith sep (c :: rest) then
        cur :: pySplitGo sep f (List.drop (sep.length - 1) rest) []
      else pySplitGo sep f rest (cur ++ [c])

/-- Python `s.split(sep)`. -/
def pySplit (s sep : String) : List String :=
  (pySplitGo sep.toList (s.toList.length + 1) s.toList []).map String.mk

/-! ### Number parsing and formatting -/

/-- Digits of a numeral, most significant first, folded to a natural. -/
def digitsToNat (ds : List Char) : Nat :=
  ds.foldl (fun acc c => acc * 10 + (c.toNat - 48)) 0

/-- Model of Python `int(s)`: optional surrounding whitespace, optional sign,
then at least one decimal digit.  (Underscore separators and other bases are
not used by any input of this repository and are omitted.) -/
def pyInt (s : String) : Option Int :=
  let t := pyStrip s
  let signAndDigits : Int × List Char :=
    match t.toList with
    | '-' :: rest => (-1, rest)
    | '+' :: rest => (1, rest)
    | l => (1, l)
  let sign := signAndDigits.1
  let ds := signAndDigits.2
  if ds.isEmpty then none
  else if ds.all (fun c => c.isDigit) then some (sign * (digitsToNat ds : Int))
  else none

/-- Model of Python `float(s)` for plain decimal literals: optional sign,
digits with an optional decimal point (digits may be on either side of the
point but not absent from both).  Exponents, `inf` and `nan` never occur in
the log inputs modelled here and are omitted. -/
def pyFloat (s : String) : Option PyRat :=
  let t := pyStrip s
  let signAndBody : Int × List Char :=
    match t.toList with
    | '-' :: rest => (-1, rest)
    | '+' :: rest => (1, rest)
    | l => (1, l)
  let sign := signAndBody.1
  let body := String.mk signAndBody.2
  match pySplit body (".") with
  | [a] =>
      if a.toList.isEmpty then none
      else if a.toList.all (fun c => c.isDigit) then
        some (ratOfInt (sign * (digitsToNat a.toList : Int)))
      else none
  | [a, b] =>
      if a.toList.isEmpty && b.toList.isEmpty then none
      else if (a.toList ++ b.toList).all (fun c => c.isDigit) then
        some ((ratOfInt (sign * (digitsToNat (a.toList ++ b.toList) : Int))).div
          ((10 : PyRat) ^ b.toList.length))
      else none
  | _ => none

/-- Group a reversed digit list into threes, for thousands separators. -/
def groupThrees : List Char → List (List Char)
  | a :: b :: c :: d :: rest => [a, b, c] :: groupThrees (d :: rest)
  | l => [l]

/-- Model of Python `f"{n:,}"` for a natural number. -/
def natCommas (n : Nat) : String :=
  let ds := (toString n).toList.reverse
  String.intercalate (",") (((groupThrees ds).map (fun g => String.mk g.reverse)).reverse)

/-- Model of Python `f"{i:,}"` for an int. -/
def intCommas (i : Int) : String :=
  if i < 0 then ("-") ++ natCommas i.natAbs else natCommas i.toNat

/-- Round a rational to the nearest integer, ties to even (the rounding used
by Python's fixed-point float formatting at the values evaluated in this
file). -/
def roundHalfEven (q : PyRat) : Int :=
  let f : Int := q.floor
  let r : PyRat := q - ratOfInt f
  if r < PyRat.mk 1 2 then f
  else if PyRat.mk 1 2 < r then f + 1
  else if f % 2 = 0 then f else f + 1

/-- Model of Python `f"{x:.Nf}"` (no thousands separator). -/
def formatFixed (decimals : Nat) (q : PyRat) : String :=
  let sign := if q < 0 then ("-") else ("")
  let scaled : Nat := (roundHalfEven (q.abs * (10 : PyRat) ^ decimals)).toNat
  let ip := scaled / 10 ^ decimals
  let fp := scaled % 10 ^ decimals
  let fs := toString fp
  let padded := String.mk (List.replicate (decimals - fs.length) ('0')) ++ fs
  sign ++ toString ip ++ (".") ++ padded

/-- Model of Python `max(l)` (`d` is the guarded-empty fallback; every call
site in the source guards non-emptiness and supplies the literal `0` the
source uses in its `if`-expression). -/
def pyMax [Max α] (d : α) : List α → α
  | [] => d
  | x :: xs => xs.foldl max x

/-- Model of Python `min(l)`, as `pyMax`. -/
def pyMin [Min α] (d : α) : List α → α
  | [] => d
  | x :: xs => xs.foldl min x

/-- The floor of the real square root (the value of `int(math.sqrt(n))` for
every magnitude reached in this file, where the float square root is exact):
the largest `k` with `k * k ≤ n`. -/
def floorSqrt (n : Nat) : Nat :=
  ((List.range (n + 1)).filter (fun k => k * k ≤ n)).length - 1

/-- Exact rational square root, used to model `math.sqrt` inside
`statistics.stdev`: at every input evaluated in this file the variance is the
square of a rational, where this function and the float computation agree. -/
def ratSqrt (q : PyRat) : PyRat :=
  (ratOfNat (floorSqrt q.num.toNat)).div (ratOfNat (floorSqrt q.den))

/-- Model of `statistics.median` (exact; Python sorts and averages the two
middle elements for even length). -/
def pyMedian (values : List PyRat) : PyRat :=
  let s := List.insertionSort (fun a b => a ≤ b) values
  let n := s.length
  if n % 2 = 1 then s.getD (n / 2) 0
  else (s.getD (n / 2 - 1) 0 + s.getD (n / 2) 0).div ⟨2, 1⟩

/-- Model of `statistics.stdev` (sample standard deviation; `statistics`
computes the interior sums exactly). -/
def pyStdev (values : List PyRat) : PyRat :=
  let m : PyRat := (PyRat.listSum values).div (ratOfNat values.length)
  ratSqrt ((PyRat.listSum (values.map (fun x => (x - m) ^ 2))).div
    (ratOfNat values.length - 1))

/-! ### Result envelope and execution engine (src/core/base.py) -/

/-- `JobResult` dataclass of `core/base.py`.  `data` is the job-specific
payload (`Any` in Python, a type parameter here); `metadata`, when present,
is the single counter the jobs store (`files_processed` resp.
`ranges_processed`). -/
structure JobResult (α : Type) where
  success : Bool
  data : Option α
  error : Option String
  metadata : Option Nat
deriving DecidableEq

/-- The `try/except` boundary that turns a raised exception into
`JobResult(success=False, data=None, error=str(e))`.  It appears twice in the
source with the same shape: around each future in
`BaseJob._process_parallel` (base.py lines 67-73 and 84-90) and around the
body of each job's `process_chunk` (ingest.py line 88, prime.py line 75). -/
def processChunkWrapper (r : Except String (JobResult α)) : JobResult α :=
  match r with
  | .ok res => res
  | .error e => { success := false, data := none, error := some e, metadata := none }

/-- `BaseJob._process_parallel` (base.py lines 54-92).  The two executor
branches are structurally identical; creating a pool with
`max_workers <= 0` raises `ValueError` before any submission; a mode outside
the two recognised strings falls through both branches and returns the empty
result list.  The nondeterministic `as_completed` order is modelled as
submission order. -/
def processParallel (f : α → Except String (JobResult β)) (chunks : List α)
    (numWorkers : Int) (mode : String) : Except String (List (JobResult β)) :=
  if mode = ("threading") then
    if numWorkers ≤ 0 then .error ("max_workers must be greater than 0")
    else .ok (chunks.map (fun c => processChunkWrapper (f c)))
  else if mode = ("process") then
    if numWorkers ≤ 0 then .error ("max_workers must be greater than 0")
    else .ok (chunks.map (fun c => processChunkWrapper (f c)))
  else .ok []

/-! ### Insertion-ordered counters (collections.Counter as used here)

A CPython `Counter` is an insertion-ordered dict; `update` adds counts in
place for existing keys and appends new keys in the other counter's
iteration order; `most_common` sorts by count descending, stably, so
equal-count keys keep insertion order. -/

/-- Insertion-ordered counter: association list in key-insertion order. -/
abbrev PyCounter := List (String × Nat)

/-- `counter[k] += n` (also the `self[elem] = count + self.get(elem, 0)` step
of `Counter.update`). -/
def counterAdd (c : PyCounter) (k : String) (n : Nat) : PyCounter :=
  if c.any (fun p => p.1 = k) then
    c.map (fun p => if p.1 = k then (p.1, p.2 + n) else p)
  else c ++ [(k, n)]

/-- `Counter.update(other)`: fold `counterAdd` over `other` in its insertion
order. -/
def counterUpdate (self other : PyCounter) : PyCounter :=
  other.foldl (fun acc p => counterAdd acc p.1 p.2) self

/-- Stable descending insertion for `most_common`: an element moves past
strictly greater counts only, so equal counts keep their original order. -/
def insertDesc (a : String × Nat) : PyCounter → PyCounter
  | [] => [a]
  | b :: t => if b.2 > a.2 then b :: insertDesc a t else a :: b :: t

/-- `Counter.most_common()`: stable sort by count, descending. -/
def mostCommon : PyCounter → PyCounter
  | [] => []
  | a :: t => insertDesc a (mostCommon t)

/-! ### Log-line parsing and statistics (src/core/utils.py) -/

/-- A successfully parsed log line (the dict returned by `parse_log_line`). -/
structure ParsedLine where
  method : String
  path : String
  status : Int
  time_ms : PyRat
  user_agent : Option String
deriving DecidableEq

/-- `parse_log_line` (utils.py lines 33-97).  The `try/except (ValueError,
IndexError)` around the body corresponds to the `Option` results of `pyInt`
and `pyFloat` (a failed `int`/`float` conversion makes the whole parse return
`None`); the guarded index accesses cannot raise once the length checks have
passed. -/
def parse_log_line (line : String) : Option ParsedLine :=
  let l := pyStrip line
  if l.toList.isEmpty then none
  else
    let main_parts := pySplit l (", ")
    if main_parts.length < 2 then none
    else
      let method_path := main_parts.getD 0 ("")
      if ¬ pyStartsWith method_path ("[") then none
      else if ¬ pyContainsChar method_path (']') then none
      else
        let cs := method_path.toList
        let method_end := cs.findIdx (fun c => c = ']')
        let method := String.mk ((cs.drop 1).take (method_end - 1))
        let path := String.mk (cs.drop (method_end + 2))
        let status_part := main_parts.getD 1 ("")
        if ¬ pyStartsWith status_part ("status=") then none
        else
          match pyInt ((pySplit status_part ("=")).getD 1 ("")) with
          | none => none
          | some status =>
            if main_parts.length ≥ 3 then
              let time_ua_part := main_parts.getD 2 ("")
              let time_ua_parts := pySplit time_ua_part (" user-agent=")
              let time_part :=
                if time_ua_parts.length ≥ 2 then time_ua_parts.getD 0 ("") else time_ua_part
              let user_agent :=
                if time_ua_parts.length ≥ 2 then some (time_ua_parts.getD 1 ("")) else none
              if pyStartsWith time_part ("time=") then
                let time_str := (pySplit time_part ("=")).getD 1 ("")
                let numStr :=
                  if pyEndsWith time_str ("ms") then String.mk time_str.toList.dropLast.dropLast
                  else time_str
                match pyFloat numStr with
                | none => none
                | some t =>
                  some { method := method, path := path, status := status,
                         time_ms := t, user_agent := user_agent }
              else
                some { method := method, path := path, status := status,
                       time_ms := 0, user_agent := user_agent }
            else
              some { method := method, path := path, status := status,
                     time_ms := 0, user_agent := none }

/-- `get_status_class` (utils.py lines 100-102); Python `//` is floor
division. -/
def get_status_class (status : Int) : String :=
  toString (Int.fdiv status 100) ++ ("xx")

/-- The dict returned by `calculate_statistics` (the `min`/`max` keys are
named `minV`/`maxV` here because `min`/`max` collide with the order
classes). -/
structure IngestStats where
  count : Nat
  mean : PyRat
  median : PyRat
  minV : PyRat
  maxV : PyRat
  std_dev : PyRat
deriving DecidableEq

/-- `calculate_statistics` (utils.py lines 18-30); `none` models the empty
dict returned for an empty value list. -/
def calculate_statistics (values : List PyRat) : Option IngestStats :=
  if values.isEmpty then none
  else some
    { count := values.length
      mean := (PyRat.listSum values).div (ratOfNat values.length)
      median := pyMedian values
      minV := pyMin 0 values
      maxV := pyMax 0 values
      std_dev := if values.length > 1 then pyStdev values else 0 }

/-- One `"  key: value"` line of the counter sections of `format_output`. -/
def fmtKV (p : String × Nat) : String :=
  ("  ") ++ p.1 ++ (": ") ++ natCommas p.2

/-- The dict assembled by both `process_chunk` and `merge_results` of the
ingest job and consumed by `format_output`; `latency_stats = none` models the
empty stats dict. -/
structure IngestData where
  total_requests : Nat
  by_method : PyCounter
  by_status_class : PyCounter
  latency_stats : Option IngestStats
  user_agents : PyCounter
deriving DecidableEq

/-- `format_output` (utils.py lines 105-145).  The five `'key' in data`
checks are all true for the dicts built by this repository (every caller
supplies all five keys), so the sections are rendered unconditionally; the
`stats.get(k, 0)` defaults appear as `Option.map ... |>.getD 0` for the
empty-stats case. -/
def format_output (d : IngestData) : String :=
  let stats := d.latency_stats
  let lines :=
    [("Total Requests: ") ++ natCommas d.total_requests, ("")]
    ++ [("Requests by Method:")] ++ (mostCommon d.by_method).map fmtKV ++ [("")]
    ++ [("Requests by Status Class:")] ++ (mostCommon d.by_status_class).map fmtKV ++ [("")]
    ++ [("Latency Statistics (ms):"),
        ("  Count: ") ++ natCommas ((stats.map IngestStats.count).getD 0),
        ("  Mean: ") ++ formatFixed 2 ((stats.map IngestStats.mean).getD 0),
        ("  Median: ") ++ formatFixed 2 ((stats.map IngestStats.median).getD 0),
        ("  Min: ") ++ formatFixed 2 ((stats.map IngestStats.minV).getD 0),
        ("  Max: ") ++ formatFixed 2 ((stats.map IngestStats.maxV).getD 0),
        ("  Std Dev: ") ++ formatFixed 2 ((stats.map IngestStats.std_dev).getD 0),
        ("")]
    ++ [("Top User Agents:")] ++ ((mostCommon d.user_agents).take 10).map fmtKV
  String.intercalate ("\n") lines

/-! ### Round-robin distribution (the loop shared by both split_workload) -/

/-- The distribution loop `for i, x in enumerate(items):
chunks[i % num_workers].append(x)` of ingest.py lines 34-35 and prime.py
lines 30-33, with `i` starting at the given index. -/
def fillBuckets (n : Nat) : List (List α) → Nat → List α → List (List α)
  | bs, _, [] => bs
  | bs, i, x :: xs =>
      fillBuckets n (bs.set (i % n) (bs.getD (i % n) [] ++ [x])) (i + 1) xs

/-- Modelled from the spec: "round-robin distribution of discrete input units
across workerCount buckets, dropping any bucket that ends up empty" — bucket
`j` receives the items whose position is congruent to `j` modulo the worker
count.  Used only to state the refinement theorem for the determinism claim.
-/
def specSelect (n j : Nat) : Nat → List α → List α
  | _, [] => []
  | i, x :: xs =>
      if i % n = j then x :: specSelect n j (i + 1) xs else specSelect n j (i + 1) xs

/-- Modelled from the spec (see `specSelect`): the deterministic round-robin
grouping, empty buckets dropped. -/
def roundRobinSpec (items : List α) (n : Nat) : List (List α) :=
  ((List.range n).map (fun j => specSelect n j 0 items)).filter (fun c => ¬ c.isEmpty)

/-! ### The log-ingest job (src/jobs/ingest.py) -/

/-- A directory of files: names in directory-enumeration order (the order
`Path.glob` yields), each with its lines (already stripped of the trailing
newline, which `parse_log_line` discards anyway) or a read error. -/
structure Dir where
  entries : List (String × Except String (List String))

/-- `Path(path).glob("*.log")`: names ending in `.log`; a leading-dot name is
not matched by the `*` wildcard. -/
def logFiles (d : Dir) : List String :=
  ((d.entries.map (fun e => e.1)).filter
    (fun p => pyEndsWith p (".log") && ¬ pyStartsWith p (".")))

/-- `open(file_path)` + iteration: the file's lines, or a raised `OSError`. -/
def readFile (d : Dir) (p : String) : Except String (List String) :=
  match d.entries.find? (fun e => e.1 = p) with
  | some e => e.2
  | none => .error ("FileNotFoundError")

/-- `LogIngestJob.split_workload` (ingest.py lines 23-38).  With no `.log`
files it returns `[]` before the distribution loop.  With files present and
`num_workers = 0` the loop raises `ZeroDivisionError` at `i % num_workers`;
with a negative count `chunks` is empty (`range` of a negative is empty) and
`chunks[0 % num_workers]` raises `IndexError`; both escape `execute`
uncaught and are modelled as `.error`. -/
def LogIngestJob.split_workload (d : Dir) (numWorkers : Int) :
    Except String (List (List String)) :=
  let log_files := logFiles d
  if log_files.isEmpty then .ok []
  else if numWorkers = 0 then .error ("integer modulo by zero")
  else if numWorkers < 0 then .error ("list index out of range")
  else .ok ((fillBuckets numWorkers.toNat (List.replicate numWorkers.toNat []) 0
      log_files).filter (fun c => ¬ c.isEmpty))

/-- The per-chunk accumulator of `LogIngestJob.process_chunk`. -/
structure IngestAcc where
  total : Nat
  by_method : PyCounter
  by_status_class : PyCounter
  latencies : List PyRat
  user_agents : PyCounter

/-- The per-line body of `process_chunk` (ingest.py lines 54-65): an
unparseable line is skipped; `if parsed['user_agent']:` is falsy for both
`None` and the empty string. -/
def processLine (acc : IngestAcc) (line : String) : IngestAcc :=
  match parse_log_line line with
  | none => acc
  | some p =>
    { total := acc.total + 1
      by_method := counterAdd acc.by_method p.method 1
      by_status_class := counterAdd acc.by_status_class (get_status_class p.status) 1
      latencies := acc.latencies ++ [p.time_ms]
      user_agents :=
        if (p.user_agent.getD ("")).toList.isEmpty then acc.user_agents
        else counterAdd acc.user_agents (p.user_agent.getD ("")) 1 }

/-- The per-file loop of `process_chunk` (ingest.py lines 49-69): a file
whose `open`/read raises is logged and skipped (`continue`). -/
def processFile (d : Dir) (acc : IngestAcc) (p : String) : IngestAcc :=
  match readFile d p with
  | .error _ => acc
  | .ok lines => lines.foldl processLine acc

/-- The freshly initialised counters of `process_chunk` (ingest.py
lines 43-47). -/
def ingestAccInit : IngestAcc :=
  { total := 0, by_method := [], by_status_class := [], latencies := [], user_agents := [] }

/-- `LogIngestJob.process_chunk` (ingest.py lines 40-90).  The outer
`try/except` is `processChunkWrapper`; in this embedding the body itself is
total (all fallible inner operations are caught inside it), so the chunk
body is an `.ok`. -/
def LogIngestJob.process_chunk (d : Dir) (chunk : List String) : JobResult IngestData :=
  let acc := chunk.foldl (processFile d) ingestAccInit
  processChunkWrapper (.ok
    { success := true
      data := some
        { total_requests := acc.total
          by_method := acc.by_method
          by_status_class := acc.by_status_class
          latency_stats :=
            if acc.latencies.isEmpty then none else calculate_statistics acc.latencies
          user_agents := acc.user_agents }
      error := none
      metadata := some chunk.length })

/-- The merge accumulator of `LogIngestJob.merge_results`. -/
structure IngestMergeAcc where
  total_requests : Nat
  by_method : PyCounter
  by_status_class : PyCounter
  all_latencies : List PyRat
  user_agents : PyCounter
  files_processed : Nat

/-- One iteration of the aggregation loop of `merge_results` (ingest.py
lines 103-123): a result is aggregated iff `result.success and result.data`
(a failure, or a success carrying no data, is only logged); the latency list
is reconstructed as `count` copies of the stored chunk `mean`. -/
def ingestMergeStep (acc : IngestMergeAcc) (r : JobResult IngestData) : IngestMergeAcc :=
  match r.success, r.data with
  | true, some d =>
    { total_requests := acc.total_requests + d.total_requests
      by_method := counterUpdate acc.by_method d.by_method
      by_status_class := counterUpdate acc.by_status_class d.by_status_class
      all_latencies := acc.all_latencies ++
        (match d.latency_stats with
         | some st => List.replicate st.count st.mean
         | none => [])
      user_agents := counterUpdate acc.user_agents d.user_agents
      files_processed := acc.files_processed + r.metadata.getD 0 }
  | _, _ => acc

/-- The freshly initialised aggregates of `merge_results` (ingest.py
lines 95-100). -/
def ingestMergeAccInit : IngestMergeAcc :=
  { total_requests := 0, by_method := [], by_status_class := [],
    all_latencies := [], user_agents := [], files_processed := 0 }

/-- The `final_data` dict of `merge_results` (ingest.py lines 125-135). -/
def ingestMergeData (results : List (JobResult IngestData)) : IngestData :=
  let acc := results.foldl ingestMergeStep ingestMergeAccInit
  { total_requests := acc.total_requests
    by_method := acc.by_method
    by_status_class := acc.by_status_class
    latency_stats :=
      if acc.all_latencies.isEmpty then none else calculate_statistics acc.all_latencies
    user_agents := acc.user_agents }

/-- `LogIngestJob.merge_results` (ingest.py lines 92-139). -/
def LogIngestJob.merge_results (results : List (JobResult IngestData)) : String :=
  format_output (ingestMergeData results)

/-- `BaseJob.execute` (base.py lines 40-52) for the ingest job: split,
process in parallel, merge.  There is no argument validation in `execute`
(the `validate_input` decorator of core/decorators.py is never applied). -/
def LogIngestJob.execute (d : Dir) (numWorkers : Int) (mode : String) :
    Except String String := do
  let chunks ← LogIngestJob.split_workload d numWorkers
  let results ← processParallel (fun c => .ok (LogIngestJob.process_chunk d c))
    chunks numWorkers mode
  pure (LogIngestJob.merge_results results)

/-! ### The prime job (src/jobs/prime.py) -/

/-- One entry of the `ranges` list of the JSON config: the optional `start`
and `end` keys (`range_data.get('start', 1)`, `range_data.get('end', 1000)`).
-/
abbrev RangeData := Option Int × Option Int

/-- The parsed config: the `ranges` list (`config.get('ranges', [])`), or the
`ValueError` raised by `load_json_file`. -/
abbrev PrimeConfig := Except String (List RangeData)

/-- The `(start, end)` tuple appended for one range entry (prime.py lines
31-33). -/
def parseRange (r : RangeData) : Int × Int :=
  (r.1.getD 1, r.2.getD 1000)

/-- `PrimeCalculationJob.split_workload` (prime.py lines 17-40).  The whole
body is inside `try/except Exception`, so a failed config load, and the
`ZeroDivisionError`/`IndexError` that `chunks[i % num_workers]` raises for a
non-positive worker count when ranges exist, all collapse to `[]`. -/
def PrimeCalculationJob.split_workload (config : PrimeConfig) (numWorkers : Int) :
    List (List (Int × Int)) :=
  match config with
  | .error _ => []
  | .ok ranges =>
    if ranges.isEmpty then []
    else if numWorkers ≤ 0 then []
    else (fillBuckets numWorkers.toNat (List.replicate numWorkers.toNat []) 0
        (ranges.map parseRange)).filter (fun c => ¬ c.isEmpty)

/-- `PrimeCalculationJob._is_prime` (prime.py lines 93-108).
`int(math.sqrt(n))` is `floorSqrt`; `range(3, sqrt_n, 2)` is
`List.range' 3 k 2` with `k = (sqrt_n - 3 + 1) / 2` elements. -/
def is_prime (n : Int) : Bool :=
  if n < 2 then false
  else if n = 2 then true
  else if n % 2 = 0 then false
  else
    let sqrt_n := floorSqrt n.toNat + 1
    (List.range' 3 ((sqrt_n - 3 + 1) / 2) 2).all (fun i => ¬ (n % (i : Int) = 0))

/-- Python `range(s, e + 1)` over ints. -/
def intRange (s e : Int) : List Int :=
  (List.range (e + 1 - s).toNat).map (fun k => s + (k : Int))

/-- `PrimeCalculationJob._find_primes_in_range` (prime.py lines 79-91):
clamp the start to 2, then trial-divide each candidate. -/
def find_primes_in_range (start stop : Int) : List Int :=
  let s := if start < 2 then 2 else start
  (intRange s stop).filter (fun n => is_prime n)

/-- The `statistics` dict built by `PrimeCalculationJob.process_chunk`
(prime.py lines 57-63).  Note it has no `ranges_processed` key — that key
lives one level up in `data`. -/
structure PrimeStats where
  primes_found : Nat
  total_numbers_checked : Int
  largest_prime : Int
  smallest_prime : Int
  prime_density : PyRat
deriving DecidableEq

/-- The `data` dict of a successful prime chunk (prime.py lines 67-71). -/
structure PrimeData where
  primes : List Int
  statistics : PrimeStats
  ranges_processed : Nat
deriving DecidableEq

/-- `PrimeCalculationJob.process_chunk` (prime.py lines 42-77).  The outer
`try/except` is `processChunkWrapper`; the body is total in this embedding
(the chunk is a well-typed list of int pairs). -/
def PrimeCalculationJob.process_chunk (chunk : List (Int × Int)) : JobResult PrimeData :=
  let all_primes := chunk.foldl (fun acc r => acc ++ find_primes_in_range r.1 r.2) []
  let total_numbers_checked := chunk.foldl (fun acc r => acc + (r.2 - r.1 + 1)) (0 : Int)
  processChunkWrapper (.ok
    { success := true
      data := some
        { primes := all_primes
          statistics :=
            { primes_found := all_primes.length
              total_numbers_checked := total_numbers_checked
              largest_prime := if all_primes.isEmpty then 0 else pyMax 0 all_primes
              smallest_prime := if all_primes.isEmpty then 0 else pyMin 0 all_primes
              prime_density :=
                if total_numbers_checked > 0 then
                  (ratOfNat all_primes.length).div (ratOfInt total_numbers_checked)
                else 0 }
          ranges_processed := chunk.length }
      error := none
      metadata := some chunk.length })

/-- The `all_primes.extend(result.data['primes'])` contribution of one
result in the merge loop (prime.py lines 117-123): only
`result.success and result.data` contribute. -/
def primeExtractPrimes (r : JobResult PrimeData) : List Int :=
  match r.success, r.data with
  | true, some d => d.primes
  | _, _ => []

/-- The `result.data['statistics']['total_numbers_checked']` contribution. -/
def primeExtractChecked (r : JobResult PrimeData) : Int :=
  match r.success, r.data with
  | true, some d => d.statistics.total_numbers_checked
  | _, _ => 0

/-- The `result.data['statistics'].get('ranges_processed', 0)` contribution
(prime.py line 121): the `statistics` dict has no `ranges_processed` key
(that key is in `data`, one level up), so the `.get` default 0 is returned
for every result and the merged `Ranges Processed` line always shows 0. -/
def primeExtractRanges (r : JobResult PrimeData) : Nat :=
  match r.success, r.data with
  | true, some _ => 0
  | _, _ => 0

/-- `PrimeCalculationJob.merge_results` (prime.py lines 110-166). -/
def PrimeCalculationJob.merge_results (results : List (JobResult PrimeData)) : String :=
  let all_primes := results.foldl (fun acc r => acc ++ primeExtractPrimes r) []
  let total_numbers_checked := results.foldl (fun acc r => acc + primeExtractChecked r) (0 : Int)
  let total_ranges_processed := results.foldl (fun acc r => acc + primeExtractRanges r) (0 : Nat)
  let overall_largest := if all_primes.isEmpty then 0 else pyMax 0 all_primes
  let overall_smallest := if all_primes.isEmpty then 0 else pyMin 0 all_primes
  let overall_density : PyRat :=
    if all_primes.isEmpty then 0
    else if total_numbers_checked > 0 then
      (ratOfNat all_primes.length).div (ratOfInt total_numbers_checked)
    else 0
  let base_lines :=
    [("Prime Number Calculation Results"),
     String.mk (List.replicate 40 ('=')),
     ("Total Primes Found: ") ++ natCommas all_primes.length,
     ("Total Numbers Checked: ") ++ intCommas total_numbers_checked,
     ("Prime Density: ") ++ formatFixed 6 overall_density,
     ("Largest Prime: ") ++ intCommas overall_largest,
     ("Smallest Prime: ") ++ intCommas overall_smallest,
     ("Ranges Processed: ") ++ toString total_ranges_processed]
  let lines :=
    if all_primes.isEmpty then base_lines
    else base_lines ++
      [(""), ("First 20 Primes Found:"),
       String.intercalate (", ")
         (((List.insertionSort (fun a b => a ≤ b) all_primes).take 20).map
           (fun z => toString z))]
  String.intercalate ("\n") lines

/-- `BaseJob.execute` for the prime job (base.py lines 40-52). -/
def PrimeCalculationJob.execute (config : PrimeConfig) (numWorkers : Int) (mode : String) :
    Except String String := do
  let chunks := PrimeCalculationJob.split_workload config numWorkers
  let results ← processParallel (fun c => .ok (PrimeCalculationJob.process_chunk c))
    chunks numWorkers mode
  pure (PrimeCalculationJob.merge_results results)

/-! ### The standalone worker helpers (src/workers) -/

/-- `ThreadWorker.work` (thread_worker.py lines 16-26): call the task if
callable (a task is modelled by the outcome of that call) and re-raise any
exception. -/
def ThreadWorker.work (task : Except String β) : Except String β :=
  task

/-- `ProcessWorker.work` (process_worker.py lines 17-27): identical. -/
def ProcessWorker.work (task : Except String β) : Except String β :=
  task

/-- `ThreadWorker.process_batch` (thread_worker.py lines 28-48), at the
default `max_workers`: a future that raised appends `None`, a completed one
appends its value; completion order is modelled as submission order. -/
def ThreadWorker.process_batch (tasks : List (Except String β)) : List (Option β) :=
  tasks.foldl (fun rs t => rs ++ [(ThreadWorker.work t).toOption]) []

/-- `ProcessWorker.process_batch` (process_worker.py lines 29-53):
structurally identical to the thread version. -/
def ProcessWorker.process_batch (tasks : List (Except String β)) : List (Option β) :=
  tasks.foldl (fun rs t => rs ++ [(ProcessWorker.work t).toOption]) []

/-! ### Concrete inputs used by the claim theorems -/

/-- A directory with no `.log` file: `split_workload` yields no chunks. -/
def emptyLogDir : Dir :=
  ⟨[(("readme.txt"), .ok [("no logs here")])]⟩

/-- A well-formed log line in the format parsed by `parse_log_line`. -/
def goodLine : String :=
  ("[GET] /index, status=200, time=10ms user-agent=curl")

/-- Two log files with 5 well-formed lines and 1 malformed line each:
10 well-formed and 2 malformed lines in total. -/
def twoFileDir : Dir :=
  ⟨[(("a.log"), .ok [goodLine, goodLine, goodLine, goodLine, goodLine,
      ("this is not a log line")]),
    (("b.log"), .ok [goodLine, goodLine, goodLine, goodLine, goodLine,
      ("#comment")])]⟩

/-- The config `{"ranges": [{"start": 1, "end": 20}]}`. -/
def primeCfg120 : PrimeConfig :=
  .ok [(some 1, some 20)]

/-- A successful ingest result whose only content is one request with the
given method (for the permutation counterexample). -/
def methodOnlyResult (m : String) : JobResult IngestData :=
  { success := true
    data := some
      { total_requests := 1, by_method := [(m, 1)], by_status_class := [(("2xx"), 1)],
        latency_stats := none, user_agents := [] }
    error := none
    metadata := some 1 }

/-- A successful ingest result carrying only the latency statistics of the
given chunk latencies, as `process_chunk` would store them. -/
def latencyOnlyResult (lats : List PyRat) : JobResult IngestData :=
  { success := true
    data := some
      { total_requests := lats.length, by_method := [], by_status_class := [],
        latency_stats := calculate_statistics lats, user_agents := [] }
    error := none
    metadata := some 1 }

/-- Per-chunk latency lists for the reconstruction claim: chunk means are
21, 25 and 29 but the raw per-line values spread much wider. -/
def c10lat1 : List PyRat := [20, 22]

def c10lat2 : List PyRat := [11, 11, 39, 39, 25, 25]

def c10lat3 : List PyRat := [24, 34]

/-- The three chunk results of the reconstruction claim. -/
def c10Results : List (JobResult IngestData) :=
  [latencyOnlyResult c10lat1, latencyOnlyResult c10lat2, latencyOnlyResult c10lat3]

/-- All per-line latencies of the reconstruction claim, flattened. -/
def c10Raw : List PyRat := c10lat1 ++ c10lat2 ++ c10lat3

/-- A chunk-processing function with one raising chunk, for the conservation
and error-conversion witnesses. -/
def demoBody : Nat → Except String (JobResult Nat)
  | 1 => .error ("boom")
  | n => .ok { success := true, data := some n, error := none, metadata := none }

/-- Two prime chunk results over disjoint ranges, for the merge-permutation
witness. -/
def primeRes1 : JobResult PrimeData := PrimeCalculationJob.process_chunk [(1, 10)]

/-- See `primeRes1`. -/
def primeRes2 : JobResult PrimeData := PrimeCalculationJob.process_chunk [(11, 20)]

deriving instance DecidableEq for Except

/-! ### Helper lemmas -/

theorem foldl_append_eq_flatMap (f : α → List β) :
    ∀ (l : List α) (acc : List β),
      l.foldl (fun a r => a ++ f r) acc = acc ++ l.flatMap f := by
  intro l
  induction l with
  | nil => intro acc; simp
  | cons x xs ih => intro acc; simp [ih, List.append_assoc]

theorem foldl_add_eq_sum_int (f : α → Int) :
    ∀ (l : List α) (acc : Int),
      l.foldl (fun a r => a + f r) acc = acc + (l.map f).sum := by
  intro l
  induction l with
  | nil => intro acc; simp
  | cons x xs ih => intro acc; simp [ih, Int.add_assoc]

theorem foldl_add_eq_sum_nat (f : α → Nat) :
    ∀ (l : List α) (acc : Nat),
      l.foldl (fun a r => a + f r) acc = acc + (l.map f).sum := by
  intro l
  induction l with
  | nil => intro acc; simp
  | cons x xs ih => intro acc; simp [ih, Nat.add_assoc]

theorem foldl_append_singleton_eq_map (g : α → β) :
    ∀ (l : List α) (acc : List β),
      l.foldl (fun rs t => rs ++ [g t]) acc = acc ++ l.map g := by
  intro l
  induction l with
  | nil => intro acc; simp
  | cons x xs ih => intro acc; simp [ih, List.append_assoc]

theorem foldl_max_perm_int {l1 l2 : List Int} (h : l1.Perm l2) :
    ∀ a : Int, l1.foldl max a = l2.foldl max a := by
  induction h with
  | nil => intro a; rfl
  | cons x h ih => intro a; simp only [List.foldl_cons]; exact ih _
  | swap x y l => intro a; simp only [List.foldl_cons]; rw [sup_right_comm]
  | trans h1 h2 ih1 ih2 => intro a; rw [ih1, ih2]

theorem foldl_min_perm_int {l1 l2 : List Int} (h : l1.Perm l2) :
    ∀ a : Int, l1.foldl min a = l2.foldl min a := by
  induction h with
  | nil => intro a; rfl
  | cons x h ih => intro a; simp only [List.foldl_cons]; exact ih _
  | swap x y l => intro a; simp only [List.foldl_cons]; rw [inf_right_comm]
  | trans h1 h2 ih1 ih2 => intro a; rw [ih1, ih2]

theorem pyMax_perm_int {l1 l2 : List Int} (h : l1.Perm l2) :
    pyMax 0 l1 = pyMax 0 l2 := by
  induction h with
  | nil => rfl
  | cons x h ih => simp only [pyMax]; exact foldl_max_perm_int h x
  | swap x y l => simp only [pyMax, List.foldl_cons]; rw [sup_comm]
  | trans h1 h2 ih1 ih2 => rw [ih1, ih2]

theorem pyMin_perm_int {l1 l2 : List Int} (h : l1.Perm l2) :
    pyMin 0 l1 = pyMin 0 l2 := by
  induction h with
  | nil => rfl
  | cons x h ih => simp only [pyMin]; exact foldl_min_perm_int h x
  | swap x y l => simp only [pyMin, List.foldl_cons]; rw [inf_comm]
  | trans h1 h2 ih1 ih2 => rw [ih1, ih2]

theorem isEmpty_perm {l1 l2 : List α} (h : l1.Perm l2) : l1.isEmpty = l2.isEmpty := by
  have := h.length_eq
  cases l1 <;> cases l2 <;> simp_all

theorem insertionSort_perm_congr {l1 l2 : List Int} (h : l1.Perm l2) :
    List.insertionSort (fun a b => a ≤ b) l1 = List.insertionSort (fun a b => a ≤ b) l2 :=
  List.eq_of_perm_of_sorted
    ((List.perm_insertionSort _ l1).trans (h.trans (List.perm_insertionSort _ l2).symm))
    (List.sorted_insertionSort _ l1) (List.sorted_insertionSort _ l2)

theorem fillBuckets_length (n : Nat) :
    ∀ (items : List α) (bs : List (List α)) (i : Nat),
      (fillBuckets n bs i items).length = bs.length := by
  intro items
  induction items with
  | nil => intro bs i; rfl
  | cons x xs ih => intro bs i; rw [fillBuckets, ih, List.length_set]

theorem getD_set_eq (l : List (List α)) (i : Nat) (x : List α) (h : i < l.length) :
    (l.set i x).getD i [] = x := by
  simp [List.getD, List.getElem?_set_self, h]

theorem getD_set_ne (l : List (List α)) (i j : Nat) (x : List α) (h : i ≠ j) :
    (l.set i x).getD j [] = l.getD j [] := by
  simp [List.getD, List.getElem?_set_ne h]

theorem fillBuckets_getD (n : Nat) :
    ∀ (items : List α) (bs : List (List α)) (i j : Nat),
      bs.length = n → j < n →
      (fillBuckets n bs i items).getD j [] = bs.getD j [] ++ specSelect n j i items := by
  intro items
  induction items with
  | nil => intro bs i j hlen hj; simp [fillBuckets, specSelect]
  | cons x xs ih =>
    intro bs i j hlen hj
    rw [fillBuckets, specSelect]
    rw [ih _ (i + 1) j (by rw [List.length_set]; exact hlen) hj]
    by_cases hcase : i % n = j
    · rw [hcase, getD_set_eq _ _ _ (by rw [hlen]; exact hj), if_pos rfl]
      rw [List.append_assoc, List.singleton_append]
    · rw [getD_set_ne _ _ _ _ hcase, if_neg hcase]

theorem fillBuckets_replicate_eq_spec (items : List α) (n : Nat) :
    fillBuckets n (List.replicate n []) 0 items =
      (List.range n).map (fun j => specSelect n j 0 items) := by
  apply List.ext_getElem
  · rw [fillBuckets_length]; simp
  · intro j h1 h2
    have hj : j < n := by
      have := fillBuckets_length n items (List.replicate (α := List α) n []) 0
      rw [this, List.length_replicate] at h1
      exact h1
    have hD := fillBuckets_getD n items (List.replicate n []) 0 j (by simp) hj
    have hrep : (List.replicate n ([] : List α)).getD j [] = [] := by
      simp [List.getD]
    rw [hrep, List.nil_append] at hD
    have hL : (fillBuckets n (List.replicate n ([] : List α)) 0 items)[j] =
        (fillBuckets n (List.replicate n ([] : List α)) 0 items).getD j [] := by
      simp [List.getD, List.getElem?_eq_getElem h1]
    rw [hL, hD]
    simp

theorem ingest_split_eq_spec (d : Dir) (nw : Int) (hw : 1 ≤ nw) :
    LogIngestJob.split_workload d nw = .ok (roundRobinSpec (logFiles d) nw.toNat) := by
  unfold LogIngestJob.split_workload roundRobinSpec
  by_cases hemp : (logFiles d).isEmpty
  · rw [if_pos hemp]
    have hnil : logFiles d = [] := by
      cases h : logFiles d with
      | nil => rfl
      | cons a t => rw [h] at hemp; simp at hemp
    rw [hnil]
    have : ∀ j : Nat, specSelect nw.toNat j 0 ([] : List String) = [] := fun j => rfl
    simp [this, List.filter_eq_nil_iff]
  · rw [if_neg hemp, if_neg (by omega), if_neg (by omega)]
    rw [fillBuckets_replicate_eq_spec]

theorem prime_split_eq_spec (ranges : List RangeData) (nw : Int) (hw : 1 ≤ nw) :
    PrimeCalculationJob.split_workload (.ok ranges) nw =
      roundRobinSpec (ranges.map parseRange) nw.toNat := by
  unfold PrimeCalculationJob.split_workload roundRobinSpec
  dsimp only
  by_cases hemp : ranges.isEmpty
  · rw [if_pos hemp]
    have hnil : ranges = [] := by
      cases h : ranges with
      | nil => rfl
      | cons a t => rw [h] at hemp; simp at hemp
    rw [hnil]
    have : ∀ j : Nat, specSelect nw.toNat j 0 ([] : List (Int × Int)) = [] := fun j => rfl
    simp [this, List.filter_eq_nil_iff]
  · rw [if_neg hemp, if_neg (by omega)]
    rw [fillBuckets_replicate_eq_spec]

theorem processParallel_valid_mode (f : α → Except String (JobResult β)) (chunks : List α)
    (nw : Int) (mode : String) (hw : 1 ≤ nw)
    (hm : mode = ("threading") ∨ mode = ("process")) :
    processParallel f chunks nw mode = .ok (chunks.map (fun c => processChunkWrapper (f c))) := by
  have hnot : ¬ nw ≤ 0 := by omega
  rcases hm with h | h <;> subst h <;> simp [processParallel, hnot]

theorem processParallel_unknown_mode (f : α → Except String (JobResult β)) (chunks : List α)
    (nw : Int) (mode : String) (h1 : mode ≠ ("threading")) (h2 : mode ≠ ("process")) :
    processParallel f chunks nw mode = .ok [] := by
  simp [processParallel, h1, h2]

theorem prime_merge_perm_aux {r1 r2 : List (JobResult PrimeData)} (h : r1.Perm r2) :
    PrimeCalculationJob.merge_results r1 = PrimeCalculationJob.merge_results r2 := by
  have hall : (r1.flatMap primeExtractPrimes).Perm (r2.flatMap primeExtractPrimes) :=
    h.flatMap_right _
  have echk : (r1.map primeExtractChecked).sum = (r2.map primeExtractChecked).sum :=
    (h.map primeExtractChecked).sum_eq
  have erng : (r1.map primeExtractRanges).sum = (r2.map primeExtractRanges).sum :=
    (h.map primeExtractRanges).sum_eq
  have hlen : (r1.flatMap primeExtractPrimes).length = (r2.flatMap primeExtractPrimes).length :=
    hall.length_eq
  have hemp : (r1.flatMap primeExtractPrimes).isEmpty = (r2.flatMap primeExtractPrimes).isEmpty :=
    isEmpty_perm hall
  have hmax : pyMax 0 (r1.flatMap primeExtractPrimes) = pyMax 0 (r2.flatMap primeExtractPrimes) :=
    pyMax_perm_int hall
  have hmin : pyMin 0 (r1.flatMap primeExtractPrimes) = pyMin 0 (r2.flatMap primeExtractPrimes) :=
    pyMin_perm_int hall
  have hsort : List.insertionSort (fun a b => a ≤ b) (r1.flatMap primeExtractPrimes) =
      List.insertionSort (fun a b => a ≤ b) (r2.flatMap primeExtractPrimes) :=
    insertionSort_perm_congr hall
  simp only [PrimeCalculationJob.merge_results, foldl_append_eq_flatMap,
    foldl_add_eq_sum_int, foldl_add_eq_sum_nat, List.nil_append]
  rw [hsort, hemp, hlen, hmax, hmin, echk, erng]

/-! ### Claim theorems -/

/-- C1: for every num_workers ≥ 1 and mode in {'threading', 'process'},
`_process_parallel` over k chunks returns exactly k JobResults — a chunk
whose processing raises is converted by the per-future `try/except` into a
failure JobResult (`processChunkWrapper`) rather than omitted — so
`merge_results` receives one entry per submitted chunk. -/
theorem claim_c1_process_parallel_conservation
    (f : α → Except String (JobResult β)) (chunks : List α) (numWorkers : Int)
    (mode : String) (hw : 1 ≤ numWorkers)
    (hm : mode = ("threading") ∨ mode = ("process")) :
    processParallel f chunks numWorkers mode =
      .ok (chunks.map (fun c => processChunkWrapper (f c))) ∧
    (chunks.map (fun c => processChunkWrapper (f c))).length = chunks.length := by
  exact ⟨processParallel_valid_mode f chunks numWorkers mode hw hm, by simp⟩

/-- Witness for C1 at a concrete input: three chunks, the middle one raising,
one worker, threading mode; exactly three results come back. -/
theorem claim_c1_witness :
    ((1 : Int) ≤ 1) ∧ (("threading") = ("threading") ∨ ("threading") = ("process")) ∧
    (processParallel demoBody [0, 1, 2] 1 ("threading") =
      .ok (([0, 1, 2] : List Nat).map (fun c => processChunkWrapper (demoBody c))) ∧
    (([0, 1, 2] : List Nat).map (fun c => processChunkWrapper (demoBody c))).length =
      ([0, 1, 2] : List Nat).length) :=
  ⟨by decide, Or.inl rfl,
    claim_c1_process_parallel_conservation demoBody [0, 1, 2] 1 ("threading")
      (by decide) (Or.inl rfl)⟩

set_option maxRecDepth 100000 in
/-- C2 counterexample: the claim says `execute` with a mode outside
{'threading', 'process'} fails with an InvalidArgument error before any
dispatch.  In the code `execute` performs no validation at all
(`validate_input` is never applied) and `_process_parallel` silently returns
the empty result list for an unknown mode, so `execute` on a non-empty
two-file directory with mode `"bogus"` succeeds, returning the degenerate
merged report instead of raising. -/
theorem claim_c2_counterexample :
    LogIngestJob.execute twoFileDir 1 ("bogus") =
      .ok (("Total Requests: 0\n\nRequests by Method:\n\nRequests by Status Class:\n\nLatency Statistics (ms):\n  Count: 0\n  Mean: 0.00\n  Median: 0.00\n  Min: 0.00\n  Max: 0.00\n  Std Dev: 0.00\n\nTop User Agents:")) := by
  decide

/-- C2 amended: `execute` performs no argument validation.  For any worker
count ≥ 1 and any mode outside {'threading', 'process'}, both jobs' `execute`
silently returns `merge_results []` (the degenerate report) without raising
and without dispatching any chunk; worker-count and path validation exist
only at the CLI layer and in the never-applied `validate_input` decorator. -/
theorem claim_c2_amended (d : Dir) (cfg : PrimeConfig) (nw : Int) (mode : String)
    (hw : 1 ≤ nw) (h1 : mode ≠ ("threading")) (h2 : mode ≠ ("process")) :
    LogIngestJob.execute d nw mode = .ok (LogIngestJob.merge_results []) ∧
    PrimeCalculationJob.execute cfg nw mode = .ok (PrimeCalculationJob.merge_results []) := by
  constructor
  · unfold LogIngestJob.execute LogIngestJob.split_workload
    by_cases hemp : (logFiles d).isEmpty
    · rw [if_pos hemp]
      simp only [processParallel_unknown_mode _ _ _ _ h1 h2]
      rfl
    · rw [if_neg hemp, if_neg (by omega), if_neg (by omega)]
      simp only [processParallel_unknown_mode _ _ _ _ h1 h2]
      rfl
  · unfold PrimeCalculationJob.execute
    simp only [processParallel_unknown_mode _ _ _ _ h1 h2]
    rfl

/-- Witness for C2-amended at a concrete input: both jobs, two workers, mode
`"bogus"`. -/
theorem claim_c2_amended_witness :
    ((1 : Int) ≤ 2) ∧ (("bogus") ≠ ("threading")) ∧ (("bogus") ≠ ("process")) ∧
    (LogIngestJob.execute twoFileDir 2 ("bogus") = .ok (LogIngestJob.merge_results []) ∧
     PrimeCalculationJob.execute primeCfg120 2 ("bogus") =
       .ok (PrimeCalculationJob.merge_results [])) :=
  ⟨by decide, by decide, by decide,
    claim_c2_amended twoFileDir primeCfg120 2 ("bogus") (by decide) (by decide) (by decide)⟩

set_option maxRecDepth 100000 in
/-- C3 counterexample: `LogIngestJob.merge_results` is not invariant under
permutation of its input results.  Two successful results whose only
difference is the request method (GET vs POST, one request each) merge to
different report strings under the two orders, because
`Counter.most_common()` orders equal-count keys by dict insertion order,
which follows the order the results were aggregated in. -/
theorem claim_c3_counterexample :
    ([methodOnlyResult ("GET"), methodOnlyResult ("POST")]).Perm
      [methodOnlyResult ("POST"), methodOnlyResult ("GET")] ∧
    LogIngestJob.merge_results [methodOnlyResult ("GET"), methodOnlyResult ("POST")] ≠
      LogIngestJob.merge_results [methodOnlyResult ("POST"), methodOnlyResult ("GET")] :=
  ⟨List.Perm.swap _ _ _, by decide⟩

/-- C3 amended: `PrimeCalculationJob.merge_results` is invariant under every
permutation of its input result sequence (all its aggregates are multiset
functions and the displayed prime list is sorted first).  For
`LogIngestJob.merge_results` the numeric aggregates are permutation
invariant but the rendered report string is not
(see the counterexample): `most_common` breaks count ties by insertion
order, which depends on the order results arrive. -/
theorem claim_c3_amended {r1 r2 : List (JobResult PrimeData)} (h : r1.Perm r2) :
    PrimeCalculationJob.merge_results r1 = PrimeCalculationJob.merge_results r2 :=
  prime_merge_perm_aux h

/-- Witness for C3-amended: swapping two concrete prime chunk results leaves
the merged report unchanged. -/
theorem claim_c3_amended_witness :
    ([primeRes1, primeRes2]).Perm [primeRes2, primeRes1] ∧
    PrimeCalculationJob.merge_results [primeRes1, primeRes2] =
      PrimeCalculationJob.merge_results [primeRes2, primeRes1] :=
  ⟨List.Perm.swap _ _ _, claim_c3_amended (List.Perm.swap _ _ _)⟩

/-- C4: any exception raised inside a chunk body is caught by the
`try/except` of `process_chunk` (modelled by `processChunkWrapper`, the
shape shared by ingest.py line 88 and prime.py line 75) and converted into a
`JobResult` with `success = False` and the exception's non-empty message as
`error`; nothing propagates, so in both pool modes every sibling chunk's
result still reaches `merge_results` (one result per chunk regardless of the
failure). -/
theorem claim_c4_chunk_failure_captured
    (f : α → Except String (JobResult β)) (chunks : List α) (c : α) (m : String)
    (hb : f c = .error m) (hm : m ≠ ("")) (nw : Int) (hw : 1 ≤ nw) :
    processChunkWrapper (f c) =
      { success := false, data := none, error := some m, metadata := none } ∧
    (processChunkWrapper (f c)).error ≠ some ("") ∧
    processParallel f chunks nw ("threading") =
      .ok (chunks.map (fun x => processChunkWrapper (f x))) ∧
    processParallel f chunks nw ("process") =
      .ok (chunks.map (fun x => processChunkWrapper (f x))) := by
  refine ⟨by rw [hb]; rfl, ?_, ?_, ?_⟩
  · rw [hb]
    intro hcontra
    exact hm (Option.some_injective _ hcontra)
  · exact processParallel_valid_mode f chunks nw ("threading") hw (Or.inl rfl)
  · exact processParallel_valid_mode f chunks nw ("process") hw (Or.inr rfl)

/-- Witness for C4 at a concrete input: the failing chunk `1` of `demoBody`
yields the failure result with message `"boom"`, and all three chunks'
results are still produced in both modes. -/
theorem claim_c4_witness :
    (demoBody 1 = .error ("boom")) ∧ (("boom") ≠ ("")) ∧ ((1 : Int) ≤ 2) ∧
    (processChunkWrapper (demoBody 1) =
      { success := false, data := none, error := some ("boom"), metadata := none } ∧
    (processChunkWrapper (demoBody 1)).error ≠ some ("") ∧
    processParallel demoBody [0, 1, 2] 2 ("threading") =
      .ok (([0, 1, 2] : List Nat).map (fun x => processChunkWrapper (demoBody x))) ∧
    processParallel demoBody [0, 1, 2] 2 ("process") =
      .ok (([0, 1, 2] : List Nat).map (fun x => processChunkWrapper (demoBody x)))) :=
  ⟨rfl, by decide, by decide,
    claim_c4_chunk_failure_captured demoBody [0, 1, 2] 1 ("boom") rfl (by decide) 2 (by decide)⟩

set_option maxRecDepth 100000 in
/-- C5: with empty input (no `.log` file; a config whose `ranges` list is
empty) `split_workload` yields the empty chunk sequence, nothing is
dispatched, and `merge_results []` returns the well-formed degenerate report
for both jobs without faulting. -/
theorem claim_c5_empty_input :
    LogIngestJob.split_workload emptyLogDir 2 = .ok [] ∧
    LogIngestJob.execute emptyLogDir 2 ("threading") =
      .ok (("Total Requests: 0\n\nRequests by Method:\n\nRequests by Status Class:\n\nLatency Statistics (ms):\n  Count: 0\n  Mean: 0.00\n  Median: 0.00\n  Min: 0.00\n  Max: 0.00\n  Std Dev: 0.00\n\nTop User Agents:")) ∧
    PrimeCalculationJob.split_workload (.ok []) 2 = [] ∧
    PrimeCalculationJob.execute (.ok []) 2 ("process") =
      .ok (("Prime Number Calculation Results\n========================================\nTotal Primes Found: 0\nTotal Numbers Checked: 0\nPrime Density: 0.000000\nLargest Prime: 0\nSmallest Prime: 0\nRanges Processed: 0")) := by
  refine ⟨by decide, by decide, by decide, by decide⟩

set_option maxRecDepth 100000 in
/-- C6: for the config with the single range {start: 1, end: 20},
workerCount 1 and mode process, the prime job's merged report lists exactly
the primes 2, 3, 5, 7, 11, 13, 17, 19 and a total prime count of 8.  (The
`Ranges Processed` line shows 0 because the merge reads the key from the
wrong dict; the claim does not speak about that line.) -/
theorem claim_c6_prime_roundtrip :
    PrimeCalculationJob.execute primeCfg120 1 ("process") =
      .ok (("Prime Number Calculation Results\n========================================\nTotal Primes Found: 8\nTotal Numbers Checked: 20\nPrime Density: 0.400000\nLargest Prime: 19\nSmallest Prime: 2\nRanges Processed: 0\n\nFirst 20 Primes Found:\n2, 3, 5, 7, 11, 13, 17, 19")) := by
  decide

set_option maxRecDepth 100000 in
/-- C7: for a directory of 2 log files with 10 well-formed and 2 malformed
lines in total, `execute` with 2 workers in threading mode returns a report
whose total-request count is 10: a line `parse_log_line` cannot parse is
silently skipped — not counted, not raising, not failing the run. -/
theorem claim_c7_ingest_roundtrip :
    parse_log_line goodLine =
      some { method := ("GET"), path := ("/index"), status := 200, time_ms := 10,
             user_agent := some ("curl") } ∧
    parse_log_line ("this is not a log line") = none ∧
    parse_log_line ("#comment") = none ∧
    LogIngestJob.execute twoFileDir 2 ("threading") =
      .ok (("Total Requests: 10\n\nRequests by Method:\n  GET: 10\n\nRequests by Status Class:\n  2xx: 10\n\nLatency Statistics (ms):\n  Count: 10\n  Mean: 10.00\n  Median: 10.00\n  Min: 10.00\n  Max: 10.00\n  Std Dev: 0.00\n\nTop User Agents:\n  curl: 10")) := by
  refine ⟨by decide, by decide, by decide, by decide⟩

/-- C8: both jobs' `split_workload` equal, for every worker count ≥ 1, the
deterministic round-robin grouping written in the spec (`roundRobinSpec`,
a pure function of the discovered `.log` file list resp. the parsed range
list and the worker count); in particular two calls with identical arguments
return identical chunk groupings. -/
theorem claim_c8_split_deterministic (d : Dir) (ranges : List RangeData) (nw : Int)
    (hw : 1 ≤ nw) :
    LogIngestJob.split_workload d nw = .ok (roundRobinSpec (logFiles d) nw.toNat) ∧
    PrimeCalculationJob.split_workload (.ok ranges) nw =
      roundRobinSpec (ranges.map parseRange) nw.toNat :=
  ⟨ingest_split_eq_spec d nw hw, prime_split_eq_spec ranges nw hw⟩

set_option maxRecDepth 100000 in
/-- Witness for C8 at a concrete input: the two-file directory and a
three-range config split over two workers. -/
theorem claim_c8_witness :
    ((1 : Int) ≤ 2) ∧
    (LogIngestJob.split_workload twoFileDir 2 =
      .ok (roundRobinSpec (logFiles twoFileDir) (2 : Int).toNat) ∧
    PrimeCalculationJob.split_workload
        (.ok [(some 1, some 20), (none, none), (some 5, none)]) 2 =
      roundRobinSpec ([(some 1, some 20), (none, none),
        (some 5, none)].map parseRange) (2 : Int).toNat) :=
  ⟨by decide,
    claim_c8_split_deterministic twoFileDir
      [(some 1, some 20), (none, none), (some 5, none)] 2 (by decide)⟩

/-- C9: in the standalone worker helpers, `process_batch` (thread and
process versions alike) appends `None` for a task whose `work` call raises —
the returned list still has one entry per submitted task — whereas the
engine's `_process_parallel` converts the same failure into a failure
`JobResult` carrying the message: the two failure representations differ
(`none` carries no error information, the engine's result has
`success = false` and `error = some m`). -/
theorem claim_c9_worker_none_vs_failure_result
    (tasks : List (Except String β)) (t : Except String β) (m : String)
    (ht : t = .error m) :
    (ThreadWorker.process_batch tasks).length = tasks.length ∧
    ThreadWorker.process_batch tasks = tasks.map Except.toOption ∧
    ProcessWorker.process_batch tasks = tasks.map Except.toOption ∧
    ThreadWorker.process_batch [t] = [none] ∧
    ProcessWorker.process_batch [t] = [none] ∧
    processChunkWrapper (.error m : Except String (JobResult β)) =
      { success := false, data := none, error := some m, metadata := none } := by
  have hmap : ThreadWorker.process_batch tasks = tasks.map Except.toOption := by
    unfold ThreadWorker.process_batch ThreadWorker.work
    rw [foldl_append_singleton_eq_map]
    exact List.nil_append _
  have hmap2 : ProcessWorker.process_batch tasks = tasks.map Except.toOption := by
    unfold ProcessWorker.process_batch ProcessWorker.work
    rw [foldl_append_singleton_eq_map]
    exact List.nil_append _
  refine ⟨by rw [hmap]; simp, hmap, hmap2, ?_, ?_, rfl⟩
  · rw [ht]; rfl
  · rw [ht]; rfl

/-- Witness for C9 at a concrete input: a three-task batch whose middle task
raises `"boom"`. -/
theorem claim_c9_witness :
    ((.error ("boom") : Except String Nat) = .error ("boom")) ∧
    ((ThreadWorker.process_batch [.ok 7, .error ("boom"), .ok 9]).length =
      ([.ok 7, .error ("boom"), .ok 9] : List (Except String Nat)).length ∧
    ThreadWorker.process_batch [.ok 7, .error ("boom"), .ok 9] =
      ([.ok 7, .error ("boom"), .ok 9] : List (Except String Nat)).map Except.toOption ∧
    ProcessWorker.process_batch [.ok 7, .error ("boom"), .ok 9] =
      ([.ok 7, .error ("boom"), .ok 9] : List (Except String Nat)).map Except.toOption ∧
    ThreadWorker.process_batch [(.error ("boom") : Except String Nat)] = [none] ∧
    ProcessWorker.process_batch [(.error ("boom") : Except String Nat)] = [none] ∧
    processChunkWrapper (.error ("boom") : Except String (JobResult Nat)) =
      { success := false, data := none, error := some ("boom"), metadata := none }) :=
  ⟨rfl, claim_c9_worker_none_vs_failure_result
    [.ok 7, .error ("boom"), .ok 9] (.error ("boom")) ("boom") rfl⟩

set_option maxRecDepth 100000 in
/-- C10: `LogIngestJob.merge_results` reconstructs the merged latency list
as, per successful chunk, `count` copies of that chunk's mean (ingest.py
lines 110-116) instead of the raw per-line latencies.  On the three-chunk
input below the merged stats therefore keep the overall mean (25) and count
(10) but report median 25 vs the true 24.5, min 21 vs 11, max 29 vs 39 and
standard deviation 8/3 vs 10. -/
theorem claim_c10_latency_reconstruction :
    (ingestMergeData c10Results).latency_stats =
      calculate_statistics
        (List.replicate 2 (21 : PyRat) ++ List.replicate 6 25 ++ List.replicate 2 29) ∧
    (ingestMergeData c10Results).latency_stats =
      some { count := 10, mean := 25, median := 25, minV := 21, maxV := 29,
             std_dev := PyRat.mk 8 3 } ∧
    calculate_statistics c10Raw =
      some { count := 10, mean := 25, median := PyRat.mk 49 2, minV := 11, maxV := 39,
             std_dev := 10 } ∧
    ((ingestMergeData c10Results).latency_stats.map IngestStats.count =
      (calculate_statistics c10Raw).map IngestStats.count ∧
     (ingestMergeData c10Results).latency_stats.map IngestStats.mean =
      (calculate_statistics c10Raw).map IngestStats.mean ∧
     (ingestMergeData c10Results).latency_stats.map IngestStats.median ≠
      (calculate_statistics c10Raw).map IngestStats.median ∧
     (ingestMergeData c10Results).latency_stats.map IngestStats.minV ≠
      (calculate_statistics c10Raw).map IngestStats.minV ∧
     (ingestMergeData c10Results).latency_stats.map IngestStats.maxV ≠
      (calculate_statistics c10Raw).map IngestStats.maxV ∧
     (ingestMergeData c10Results).latency_stats.map IngestStats.std_dev ≠
      (calculate_statistics c10Raw).map IngestStats.std_dev) := by
  refine ⟨by decide, by decide, by decide, by decide, by decide, by decide, by decide,
    by decide, by decide⟩
